import Mathlib

/-!
Verification of the fwupd uefi-capsule plugin
(src/plugins/uefi-capsule/fu-plugin-uefi-capsule.c).

The definitions below are a shallow embedding of the plugin code: pure C
functions become Lean functions, the 32-bit (guint32) and 64-bit (guint64)
machine arithmetic is modelled on Nat with explicit reductions modulo 2^32 or
2^64 where the C arithmetic can wrap, and fallible calls return Except.
Structure and function names follow the C source.  Declarations whose C
counterpart is declared outside the plugin source file (shared fwupd headers)
carry a doc comment starting with "Modelled from the spec:".
-/

namespace Fwupd

/-- Error domain used by the plugin (FWUPD_ERROR_* codes referenced by the
source file, spec section 7). -/
inductive FwupdError where
  | NotSupported
  | NotFound
  | InvalidFile
  | InvalidData
  | IoError
deriving DecidableEq, Repr

/-- Post-update outcome states FWUPD_UPDATE_STATE_* used by
fu_plugin_get_results. -/
inductive FwupdUpdateState where
  | success
  | failed
  | failedTransient
deriving DecidableEq, Repr

/-- Modelled from the spec: the raw firmware status code for a successful
update (FU_UEFI_DEVICE_STATUS_SUCCESS); the enum itself is declared in a
shared header outside the plugin source. -/
def FU_UEFI_DEVICE_STATUS_SUCCESS : Nat := 0

/-- Modelled from the spec: the AC power-event-during-flash status code
(FU_UEFI_DEVICE_STATUS_ERROR_PWR_EVT_AC). -/
def FU_UEFI_DEVICE_STATUS_ERROR_PWR_EVT_AC : Nat := 6

/-- Modelled from the spec: the battery power-event-during-flash status code
(FU_UEFI_DEVICE_STATUS_ERROR_PWR_EVT_BATT). -/
def FU_UEFI_DEVICE_STATUS_ERROR_PWR_EVT_BATT : Nat := 7

/-- Shallow embedding of fu_plugin_get_results.  The raw status code and the
version-error counter are read from the device; `status_to_string` stands for
the external fu_uefi_device_status_to_string lookup (NULL becomes none).  The
result is the update state stored on the device together with the update-error
message, if one is set.  The C function always returns TRUE, so the embedding
is a total function. -/
def fu_plugin_get_results (status_to_string : Nat → Option String)
    (status version_error : Nat) : FwupdUpdateState × Option String :=
  if status = FU_UEFI_DEVICE_STATUS_SUCCESS then
    (FwupdUpdateState.success, none)
  else
    let state :=
      if status = FU_UEFI_DEVICE_STATUS_ERROR_PWR_EVT_AC ∨
         status = FU_UEFI_DEVICE_STATUS_ERROR_PWR_EVT_BATT then
        FwupdUpdateState.failedTransient
      else
        FwupdUpdateState.failed
    let version_str := toString version_error
    let err_msg :=
      match status_to_string status with
      | none => "failed to update to " ++ version_str
      | some tmp => "failed to update to " ++ version_str ++ ": " ++ tmp
    (state, some err_msg)

/-- Externally visible steps fu_plugin_update performs after the flash-budget
gate, in order. -/
inductive UpdateAction where
  | splashAttempt
  | firmwareWrite
deriving DecidableEq, Repr

/-- Shallow embedding of fu_plugin_update: first the flashes-left budget gate,
then the best-effort UX-capsule splash attempt whose result is only logged,
then the firmware write whose result is returned.  `force` models
`(flags & FWUPD_INSTALL_FLAG_FORCE) != 0` (the flag value is declared outside
the plugin source); `splashRes` and `writeRes` stand for the outcomes of the
fu_plugin_uefi_capsule_update_splash and fu_device_write_firmware collaborator
calls.  The returned list records which of the two steps were attempted. -/
def fu_plugin_update (flashes_left : Nat) (force : Bool)
    (_splashRes writeRes : Except FwupdError Unit) :
    Except FwupdError Unit × List UpdateAction :=
  if 0 < flashes_left ∧ force = false ∧ flashes_left ≤ 2 then
    (Except.error FwupdError.NotSupported, [])
  else
    (writeRes, [UpdateAction.splashAttempt, UpdateAction.firmwareWrite])

/-- Device kinds distinguished by the plugin (FuUefiDeviceKind).  Modelled
from the spec: the enum is declared in a shared header; the plugin source
compares against FU_UEFI_DEVICE_KIND_DELL_TPM_FIRMWARE and the generic
kinds used for display names. -/
inductive FuUefiDeviceKind where
  | unknownKind
  | systemFirmware
  | deviceFirmware
  | uefiDriver
  | fmp
  | dellTpmFirmware
deriving DecidableEq, Repr

/-- Version formats referenced by fu_plugin_unlock
(FWUPD_VERSION_FORMAT_QUAD). -/
inductive FwupdVersionFormat where
  | unknownFormat
  | quad
deriving DecidableEq, Repr

/-- The device state touched by fu_plugin_unlock: name, kind, remaining flash
budget, the 64-bit capability flag mask, and the version fields. -/
structure FuDevice where
  name : String
  kind : FuUefiDeviceKind
  flashes_left : Nat
  flags : Nat
  version : String
  version_format : FwupdVersionFormat
deriving DecidableEq, Repr

/-- Modelled from the spec: the updatable capability bit of the 64-bit device
flag mask (FWUPD_DEVICE_FLAG_UPDATABLE); the numeric bit position is declared
outside the plugin source. -/
def FWUPD_DEVICE_FLAG_UPDATABLE : Nat := 2

/-- Test of a capability bit, as fu_device_has_flag does on the 64-bit mask. -/
def fu_device_has_flag (d : FuDevice) (f : Nat) : Bool :=
  d.flags &&& f != 0

/-- Shallow embedding of fu_plugin_unlock.  The alternate device (a weak
reference in C) is passed explicitly; on success the updated (device,
alternate) pair is returned.  Errors carry the fwupd error code and the
formatted message.  The C expression `flags_alt & ~FWUPD_DEVICE_FLAG_UPDATABLE`
is 64-bit arithmetic, so the complement is taken inside 2^64. -/
def fu_plugin_unlock (device : FuDevice) (alternate : Option FuDevice) :
    Except (FwupdError × String) (FuDevice × FuDevice) :=
  if device.kind ≠ FuUefiDeviceKind.dellTpmFirmware then
    Except.error (FwupdError.NotSupported, "Unable to unlock " ++ device.name)
  else
    match alternate with
    | none =>
        Except.error (FwupdError.NotSupported,
          "No alternate device for " ++ device.name)
    | some device_alt =>
        if device.flashes_left = 0 then
          if device_alt.flashes_left = 0 then
            Except.error (FwupdError.NotSupported,
              "ERROR: " ++ device.name ++ " has no flashes left.")
          else
            Except.error (FwupdError.NotSupported,
              "ERROR: " ++ device_alt.name ++
                " is currently OWNED. Ownership must be removed to switch modes.")
        else
          let device_flags_alt := device_alt.flags
          Except.ok
            ({ device with
                flags := device_flags_alt,
                version := "0.0.0.0",
                version_format := FwupdVersionFormat.quad },
             { device_alt with
                flags := device_flags_alt &&&
                  (2 ^ 64 - 1 - FWUPD_DEVICE_FLAG_UPDATABLE) })

/-- One entry of the fixed catalog of pre-rendered splash image sizes. -/
structure SplashSize where
  w : Nat
  h : Nat
deriving DecidableEq, Repr

/-- The fixed catalog from fu_plugin_uefi_capsule_update_splash (the `{0,0}`
sentinel that terminates the C array is not part of the catalog). -/
def sizes : List SplashSize :=
  [⟨640, 480⟩, ⟨800, 600⟩, ⟨1024, 768⟩, ⟨1920, 1080⟩,
   ⟨3840, 2160⟩, ⟨5120, 2880⟩, ⟨5688, 3200⟩, ⟨7680, 4320⟩]

/-- The catalog paired with the loop index `i` of the C for-loop. -/
def sizes_enum : List (Nat × SplashSize) :=
  [(0, ⟨640, 480⟩), (1, ⟨800, 600⟩), (2, ⟨1024, 768⟩), (3, ⟨1920, 1080⟩),
   (4, ⟨3840, 2160⟩), (5, ⟨5120, 2880⟩), (6, ⟨5688, 3200⟩), (7, ⟨7680, 4320⟩)]

/-- The border-pixel count `(screen_width * screen_height) -
(sizes[i].width * sizes[i].height)` computed in unsigned 32-bit arithmetic:
both the multiplications and the subtraction wrap modulo 2^32. -/
def border_pixels (screen_width screen_height : Nat) (e : SplashSize) : Nat :=
  (screen_width * screen_height % 2 ^ 32 + (2 ^ 32 - e.w * e.h % 2 ^ 32)) % 2 ^ 32

/-- The selection for-loop of fu_plugin_uefi_capsule_update_splash: entries
wider or taller than the screen are skipped, otherwise the entry with the
strictly lowest border-pixel count so far is recorded.  The state is the pair
(best_idx, lowest_border_pixels), initially (G_MAXUINT, G_MAXUINT). -/
def selectLoop (screen_width screen_height : Nat) :
    List (Nat × SplashSize) → Nat × Nat → Nat × Nat
  | [], st => st
  | (i, e) :: rest, (best_idx, lowest_border_pixels) =>
      if e.w > screen_width then
        selectLoop screen_width screen_height rest (best_idx, lowest_border_pixels)
      else if e.h > screen_height then
        selectLoop screen_width screen_height rest (best_idx, lowest_border_pixels)
      else if border_pixels screen_width screen_height e < lowest_border_pixels then
        selectLoop screen_width screen_height rest
          (i, border_pixels screen_width screen_height e)
      else
        selectLoop screen_width screen_height rest (best_idx, lowest_border_pixels)

/-- The image-selection portion of fu_plugin_uefi_capsule_update_splash
(the best-sized pre-generated image search): G_MAXUINT as final best_idx
means no catalog entry fitted and yields the NotSupported error.  The
surrounding no-ux-capsule handling, BGRT probing and file I/O of the C
function are elided. -/
def fu_plugin_uefi_capsule_update_splash_best_size
    (screen_width screen_height : Nat) : Except FwupdError SplashSize :=
  if (selectLoop screen_width screen_height sizes_enum
      (4294967295, 4294967295)).1 = 4294967295 then
    Except.error FwupdError.NotSupported
  else
    Except.ok (sizes.getD
      (selectLoop screen_width screen_height sizes_enum
        (4294967295, 4294967295)).1 ⟨0, 0⟩)

/-- Sum of a byte list, as accumulated by fu_plugin_uefi_capsule_calc_checksum
(the C accumulator is a guint8, so only the value modulo 256 is ever used;
the reduction modulo 256 is applied where the C result is read). -/
def byteSum (l : List Nat) : Nat :=
  l.sum

/-- Little-endian serialization of a 32-bit field into four bytes. -/
def u32le (n : Nat) : List Nat :=
  [n % 256, n / 2 ^ 8 % 256, n / 2 ^ 16 % 256, n / 2 ^ 24 % 256]

/-- Little-endian read of a 32-bit value from four bytes. -/
def le32 (b0 b1 b2 b3 : Nat) : Nat :=
  b0 % 256 + b1 % 256 * 2 ^ 8 + b2 % 256 * 2 ^ 16 + b3 % 256 * 2 ^ 24

/-- Modelled from the spec: the bitmap validator fu_uefi_get_bitmap_size is
declared outside the plugin source; per the spec it parses and validates a
BMP byte buffer and extracts its width and height.  A BMP file starts with
the magic bytes 0x42 0x4D and stores the width and height as 32-bit
little-endian fields at offsets 18 and 22 of the 54-byte header. -/
def fu_uefi_get_bitmap_size (buf : List Nat) : Option (Nat × Nat) :=
  if 54 ≤ buf.length ∧ buf.getD 0 0 = 0x42 ∧ buf.getD 1 0 = 0x4D then
    some (le32 (buf.getD 18 0) (buf.getD 19 0) (buf.getD 20 0) (buf.getD 21 0),
          le32 (buf.getD 22 0) (buf.getD 23 0) (buf.getD 24 0) (buf.getD 25 0))
  else
    none

/-- The persist-across-reset capsule flag bit (spec section 3). -/
def EFI_CAPSULE_HEADER_FLAGS_PERSIST_ACROSS_RESET : Nat := 0x10000

/-- The outer EFI capsule header populated by
fu_plugin_uefi_capsule_write_splash_data; all integer fields are guint32 and
the guid field is 16 raw bytes. -/
structure efi_capsule_header_t where
  flags : Nat
  guid : List Nat
  header_size : Nat
  capsule_image_size : Nat
deriving DecidableEq, Repr

/-- The UX capsule sub-header populated by
fu_plugin_uefi_capsule_write_splash_data. -/
structure efi_ux_capsule_header_t where
  version : Nat
  image_type : Nat
  reserved : Nat
  x_offset : Nat
  y_offset : Nat
  checksum : Nat
deriving DecidableEq, Repr

/-- Modelled from the spec: the byte layout of efi_capsule_header_t (the
struct is declared outside the plugin source): flags as u32 little-endian,
16 guid bytes, header_size and capsule_image_size as u32 little-endian,
28 bytes in total.  The guid list is normalized to exactly 16 bytes. -/
def serialize_capsule_header (h : efi_capsule_header_t) : List Nat :=
  u32le h.flags ++
    ((h.guid.map (· % 256)).take 16 ++ List.replicate (16 - h.guid.length) 0) ++
    u32le h.header_size ++ u32le h.capsule_image_size

/-- Modelled from the spec: the byte layout of efi_ux_capsule_header_t per
spec section 6: version, image_type, reserved, x_offset and y_offset as u32
little-endian, the one-byte checksum, then three reserved zero bytes --
24 bytes in total. -/
def serialize_ux_header (h : efi_ux_capsule_header_t) : List Nat :=
  u32le h.version ++ u32le h.image_type ++ u32le h.reserved ++
    u32le h.x_offset ++ u32le h.y_offset ++ [h.checksum % 256] ++ [0, 0, 0]

/-- A built UX capsule: the two headers as finally stored, and the payload. -/
structure UxCapsule where
  capsule_header : efi_capsule_header_t
  header : efi_ux_capsule_header_t
  payload : List Nat
deriving DecidableEq, Repr

/-- The pure capsule-construction core of
fu_plugin_uefi_capsule_write_splash_data, once the bitmap width has been
parsed from the payload and the GUID string has been parsed: the two headers
are populated, the guint8 checksum is accumulated over the serialized outer
header, the serialized sub-header (whose checksum field is still 0) and the
payload, and `header.checksum = 0x100 - csum` is stored truncated to a byte.
All guint32 stores reduce modulo 2^32. -/
def build_ux_capsule (screen_x bgrt_yoffset bgrt_height width : Nat)
    (guid blob : List Nat) : UxCapsule :=
  let capsule_header : efi_capsule_header_t :=
    { flags := EFI_CAPSULE_HEADER_FLAGS_PERSIST_ACROSS_RESET,
      guid := guid,
      header_size := 28,
      capsule_image_size := (blob.length + 28 + 24) % 2 ^ 32 }
  let header0 : efi_ux_capsule_header_t :=
    { version := 1,
      image_type := 0,
      reserved := 0,
      x_offset := (screen_x % 2 ^ 32 / 2 + (2 ^ 32 - width / 2)) % 2 ^ 32,
      y_offset := (bgrt_yoffset % 2 ^ 32 + bgrt_height % 2 ^ 32) % 2 ^ 32,
      checksum := 0 }
  let csum := (byteSum (serialize_capsule_header capsule_header) +
               byteSum (serialize_ux_header header0) +
               byteSum blob) % 256
  let header : efi_ux_capsule_header_t :=
    { header0 with checksum := (0x100 - csum) % 256 }
  { capsule_header := capsule_header, header := header, payload := blob }

/-- Shallow embedding of fu_plugin_uefi_capsule_write_splash_data.  The
screen size (fu_uefi_get_framebuffer_size) and the BGRT y-offset and height
are passed in as the guint32 values the external collaborators return; the
guid argument is the result of the external fwupd_guid_from_string parse of
FU_EFIVAR_GUID_UX_CAPSULE (none on parse failure).  The filesystem side
(mkdir, stream creation, the three sequential writes, update-info recording)
is elided; the function returns the capsule exactly as serialized to disk. -/
def fu_plugin_uefi_capsule_write_splash_data
    (screen_x _screen_y bgrt_yoffset bgrt_height : Nat)
    (guid_parse : Option (List Nat)) (blob : List Nat) :
    Except FwupdError UxCapsule :=
  match fu_uefi_get_bitmap_size blob with
  | none => Except.error FwupdError.InvalidFile
  | some (width, _height) =>
      match guid_parse with
      | none => Except.error FwupdError.InvalidData
      | some guid =>
          Except.ok (build_ux_capsule screen_x bgrt_yoffset bgrt_height width guid blob)

/-- The bytes of a built capsule as written to the capsule file: outer
header, sub-header, payload, contiguously in that order. -/
def capsuleBytes (c : UxCapsule) : List Nat :=
  serialize_capsule_header c.capsule_header ++ serialize_ux_header c.header ++
    c.payload

/-- The capsule_image_size field of a successfully built capsule. -/
def capsule_image_size_of (r : Except FwupdError UxCapsule) : Option Nat :=
  match r with
  | Except.ok c => some c.capsule_header.capsule_image_size
  | Except.error _ => none

/-- The x_offset field of a successfully built capsule. -/
def x_offset_of (r : Except FwupdError UxCapsule) : Option Nat :=
  match r with
  | Except.ok c => some c.header.x_offset
  | Except.error _ => none

/-- Modelled from the spec: the 16 bytes of the fixed UX-capsule type GUID
(FU_EFIVAR_GUID_UX_CAPSULE) in the mixed-endian encoding of spec section 6;
the constant is declared outside the plugin source. -/
def guid16 : List Nat :=
  [0x62, 0x81, 0x8c, 0x3b, 0x8c, 0x18, 0xa4, 0x46,
   0xae, 0xc9, 0xbe, 0x43, 0xf1, 0xd6, 0x56, 0x97]

/-- A minimal 54-byte BMP header blob with the given width and height, used
as concrete test input for the splash writer. -/
def bmp54 (w h : Nat) : List Nat :=
  [0x42, 0x4D] ++ List.replicate 16 0 ++ u32le w ++ u32le h ++
    List.replicate 28 0

/-- A payload long enough that `blob.length + 28 + 24` wraps in the guint32
capsule_image_size field: a valid 54-byte BMP header followed by padding up
to 2^32 - 52 bytes in total. -/
def giantPayload : List Nat :=
  bmp54 640 480 ++ List.replicate (2 ^ 32 - 106) 0

/-- A small concrete valid BMP payload. -/
def smallBmp : List Nat :=
  bmp54 640 480

/-- The capsule the splash writer builds from smallBmp on a 1024x768 screen
with BGRT offset 40 and height 60. -/
def smallCapsule : UxCapsule :=
  match fu_plugin_uefi_capsule_write_splash_data 1024 768 40 60 (some guid16)
      smallBmp with
  | Except.ok c => c
  | Except.error _ =>
      { capsule_header := ⟨0, [], 0, 0⟩, header := ⟨0, 0, 0, 0, 0, 0⟩,
        payload := [] }

/-!  Theorems.  -/

/-- Claim C4: status decoding (fu_plugin_get_results) is total over all raw
status codes and never fails: status Success (0) yields update-state success
with no error message; the AC (6) and battery (7) power-event codes yield
failedTransient; every other code, including unrecognized ones, yields
failed; in every non-success case the error message is
"failed to update to <version_error>: <status-name>", with the suffix
omitted when the status code has no known name. -/
theorem get_results_decode_total
    (status_to_string : Nat → Option String) (status version_error : Nat) :
    (fu_plugin_get_results status_to_string status version_error =
        (FwupdUpdateState.success, none) ↔ status = 0) ∧
    ((status = 6 ∨ status = 7) →
      (fu_plugin_get_results status_to_string status version_error).1 =
        FwupdUpdateState.failedTransient) ∧
    (status ≠ 0 → status ≠ 6 → status ≠ 7 →
      (fu_plugin_get_results status_to_string status version_error).1 =
        FwupdUpdateState.failed) ∧
    (status ≠ 0 → status_to_string status = none →
      (fu_plugin_get_results status_to_string status version_error).2 =
        some ("failed to update to " ++ toString version_error)) ∧
    (status ≠ 0 → ∀ nm, status_to_string status = some nm →
      (fu_plugin_get_results status_to_string status version_error).2 =
        some ("failed to update to " ++ toString version_error ++ ": " ++ nm)) := by
  unfold fu_plugin_get_results FU_UEFI_DEVICE_STATUS_SUCCESS
    FU_UEFI_DEVICE_STATUS_ERROR_PWR_EVT_AC FU_UEFI_DEVICE_STATUS_ERROR_PWR_EVT_BATT
  refine ⟨?_, ?_, ?_, ?_, ?_⟩
  · constructor
    · intro h
      by_contra hne
      rw [if_neg hne] at h
      simp at h
    · intro h
      rw [if_pos h]
  · rintro (rfl | rfl) <;> simp
  · intro h0 h6 h7
    rw [if_neg h0]
    simp [h6, h7]
  · intro h0 hnone
    rw [if_neg h0]
    simp [hnone]
  · intro h0 nm hsome
    rw [if_neg h0]
    simp [hsome]

/-- Witness for claim C4: a power-event status decodes to failedTransient
with the named message, and an unknown status decodes with the suffix-free
message. -/
theorem get_results_decode_total_witness :
    (fu_plugin_get_results (fun s => if s = 6 then some "power event AC" else none)
        6 3).1 = FwupdUpdateState.failedTransient ∧
    (fu_plugin_get_results (fun _ => none) 9 3).2 =
      some ("failed to update to " ++ toString 3) :=
  ⟨(get_results_decode_total (fun s => if s = 6 then some "power event AC" else none)
      6 3).2.1 (Or.inl rfl),
   (get_results_decode_total (fun _ => none) 9 3).2.2.2.1 (by decide) rfl⟩

/-- Claim C5: if flashes_left is in (0, 2] and the force flag is unset, the
update fails with NotSupported before any splash or firmware write (empty
action trace); if force is set, or flashes_left is 0 or greater than 2, the
budget check does not refuse and the update proceeds to the splash attempt
and the firmware write. -/
theorem update_flash_budget_gate (flashes_left : Nat) (force : Bool)
    (splashRes writeRes : Except FwupdError Unit) :
    (0 < flashes_left → flashes_left ≤ 2 → force = false →
      fu_plugin_update flashes_left force splashRes writeRes =
        (Except.error FwupdError.NotSupported, [])) ∧
    (force = true ∨ flashes_left = 0 ∨ 2 < flashes_left →
      fu_plugin_update flashes_left force splashRes writeRes =
        (writeRes, [UpdateAction.splashAttempt, UpdateAction.firmwareWrite])) := by
  unfold fu_plugin_update
  constructor
  · intro h1 h2 h3
    rw [if_pos ⟨h1, h3, h2⟩]
  · intro h
    rw [if_neg]
    rintro ⟨g1, g2, g3⟩
    rcases h with h | h | h
    · rw [h] at g2
      cases g2
    · omega
    · omega

/-- Witness for claim C5: flashes_left = 2 without force is refused with
NotSupported and an empty trace; with force the update proceeds. -/
theorem update_flash_budget_gate_witness :
    fu_plugin_update 2 false (Except.ok ()) (Except.ok ()) =
      (Except.error FwupdError.NotSupported, []) ∧
    fu_plugin_update 2 true (Except.ok ()) (Except.ok ()) =
      (Except.ok (), [UpdateAction.splashAttempt, UpdateAction.firmwareWrite]) :=
  ⟨(update_flash_budget_gate 2 false (Except.ok ()) (Except.ok ())).1
      (by decide) (by decide) rfl,
   (update_flash_budget_gate 2 true (Except.ok ()) (Except.ok ())).2 (Or.inl rfl)⟩

/-- Claim C8: when the budget gate passes, a failed splash construction is
only logged: the firmware write is still attempted and the overall result of
the update is exactly the firmware-write result, independent of the splash
outcome. -/
theorem update_splash_failure_best_effort (flashes_left : Nat) (force : Bool)
    (e : FwupdError) (splashRes writeRes : Except FwupdError Unit)
    (hpass : ¬(0 < flashes_left ∧ force = false ∧ flashes_left ≤ 2)) :
    fu_plugin_update flashes_left force (Except.error e) writeRes =
      (writeRes, [UpdateAction.splashAttempt, UpdateAction.firmwareWrite]) ∧
    fu_plugin_update flashes_left force (Except.error e) writeRes =
      fu_plugin_update flashes_left force splashRes writeRes := by
  unfold fu_plugin_update
  rw [if_neg hpass]
  exact ⟨rfl, rfl⟩

/-- Witness for claim C8: with no budget limit and a failing splash step the
update still returns the successful firmware-write result. -/
theorem update_splash_failure_best_effort_witness :
    fu_plugin_update 0 false (Except.error FwupdError.NotSupported)
        (Except.ok ()) =
      (Except.ok (), [UpdateAction.splashAttempt, UpdateAction.firmwareWrite]) :=
  (update_splash_failure_best_effort 0 false FwupdError.NotSupported
    (Except.ok ()) (Except.ok ()) (by decide)).1

/-- Claim C6: fu_plugin_unlock fails with NotSupported exactly when the
device kind is not the Dell TPM dual-firmware kind, or there is no alternate
device, or the device's flashes_left is 0 -- in that last case with the
"no flashes left" message when the alternate's flashes_left is also 0 and
with the ownership message when the alternate's flashes_left is non-zero. -/
theorem unlock_failure_conditions (d : FuDevice) (alt : Option FuDevice) :
    ((∃ e, fu_plugin_unlock d alt = Except.error e) ↔
      (d.kind ≠ FuUefiDeviceKind.dellTpmFirmware ∨ alt = none ∨
        d.flashes_left = 0)) ∧
    (∀ e, fu_plugin_unlock d alt = Except.error e →
      e.1 = FwupdError.NotSupported) ∧
    (∀ a, d.kind = FuUefiDeviceKind.dellTpmFirmware → alt = some a →
      d.flashes_left = 0 → a.flashes_left = 0 →
      fu_plugin_unlock d alt = Except.error (FwupdError.NotSupported,
        "ERROR: " ++ d.name ++ " has no flashes left.")) ∧
    (∀ a, d.kind = FuUefiDeviceKind.dellTpmFirmware → alt = some a →
      d.flashes_left = 0 → a.flashes_left ≠ 0 →
      fu_plugin_unlock d alt = Except.error (FwupdError.NotSupported,
        "ERROR: " ++ a.name ++
          " is currently OWNED. Ownership must be removed to switch modes.")) := by
  refine ⟨?_, ?_, ?_, ?_⟩ <;>
    (unfold fu_plugin_unlock
     rcases alt with _ | a <;>
       by_cases hk : d.kind = FuUefiDeviceKind.dellTpmFirmware <;>
       by_cases hf : d.flashes_left = 0 <;>
       (try simp_all) <;>
       by_cases ha : a.flashes_left = 0 <;>
       (try simp_all))

/-- Witness for claim C6: concrete devices exercising the no-flashes-left
and the ownership failure messages. -/
theorem unlock_failure_conditions_witness :
    fu_plugin_unlock
        ⟨"tpm", FuUefiDeviceKind.dellTpmFirmware, 0, 3, "1.2",
          FwupdVersionFormat.unknownFormat⟩
        (some ⟨"tpm-alt", FuUefiDeviceKind.dellTpmFirmware, 0, 3, "2.0",
          FwupdVersionFormat.unknownFormat⟩) =
      Except.error (FwupdError.NotSupported,
        "ERROR: " ++ "tpm" ++ " has no flashes left.") ∧
    fu_plugin_unlock
        ⟨"tpm", FuUefiDeviceKind.dellTpmFirmware, 0, 3, "1.2",
          FwupdVersionFormat.unknownFormat⟩
        (some ⟨"tpm-alt", FuUefiDeviceKind.dellTpmFirmware, 2, 3, "2.0",
          FwupdVersionFormat.unknownFormat⟩) =
      Except.error (FwupdError.NotSupported,
        "ERROR: " ++ "tpm-alt" ++
          " is currently OWNED. Ownership must be removed to switch modes.") :=
  ⟨(unlock_failure_conditions _ _).2.2.1 _ rfl rfl rfl rfl,
   (unlock_failure_conditions _ _).2.2.2 _ rfl rfl rfl (by decide)⟩

/-- Claim C7: when unlock succeeds (Dell TPM kind, alternate present,
flashes_left > 0) the device's flags become a copy of the alternate's
capability flags, the alternate's updatable flag is stripped, and the
device's version is reset to the quad-format string "0.0.0.0"; consequently
if the alternate was updatable, the unlocked device is updatable and the
alternate no longer is. -/
theorem unlock_success_postconditions (d a : FuDevice)
    (hk : d.kind = FuUefiDeviceKind.dellTpmFirmware)
    (hf : 0 < d.flashes_left) :
    fu_plugin_unlock d (some a) = Except.ok
      ({ d with
          flags := a.flags,
          version := "0.0.0.0",
          version_format := FwupdVersionFormat.quad },
       { a with
          flags := a.flags &&& (2 ^ 64 - 1 - FWUPD_DEVICE_FLAG_UPDATABLE) }) ∧
    (∀ d2 a2, fu_plugin_unlock d (some a) = Except.ok (d2, a2) →
      (fu_device_has_flag a FWUPD_DEVICE_FLAG_UPDATABLE = true →
        fu_device_has_flag d2 FWUPD_DEVICE_FLAG_UPDATABLE = true) ∧
      fu_device_has_flag a2 FWUPD_DEVICE_FLAG_UPDATABLE = false) := by
  have hmain : fu_plugin_unlock d (some a) = Except.ok
      ({ d with
          flags := a.flags,
          version := "0.0.0.0",
          version_format := FwupdVersionFormat.quad },
       { a with
          flags := a.flags &&& (2 ^ 64 - 1 - FWUPD_DEVICE_FLAG_UPDATABLE) }) := by
    have hk2 : ¬d.kind ≠ FuUefiDeviceKind.dellTpmFirmware := by simp [hk]
    have hf2 : ¬d.flashes_left = 0 := by omega
    simp only [fu_plugin_unlock, if_neg hk2, if_neg hf2]
  refine ⟨hmain, ?_⟩
  intro d2 a2 h
  rw [hmain] at h
  injection h with h
  obtain ⟨h1, h2⟩ := Prod.mk.injEq _ _ _ _ ▸ h
  subst h1
  subst h2
  constructor
  · intro hupd
    simpa [fu_device_has_flag] using hupd
  · show ((a.flags &&& (2 ^ 64 - 1 - FWUPD_DEVICE_FLAG_UPDATABLE)) &&&
        FWUPD_DEVICE_FLAG_UPDATABLE != 0) = false
    rw [Nat.and_assoc,
      show (2 ^ 64 - 1 - FWUPD_DEVICE_FLAG_UPDATABLE) &&&
        FWUPD_DEVICE_FLAG_UPDATABLE = 0 from by decide,
      Nat.and_zero]
    rfl

/-- Witness for claim C7: a concrete unlock with both budgets non-zero and an
updatable alternate succeeds, making the device updatable and the alternate
non-updatable. -/
theorem unlock_success_postconditions_witness :
    fu_plugin_unlock
        ⟨"tpm", FuUefiDeviceKind.dellTpmFirmware, 1, 0, "1.2",
          FwupdVersionFormat.unknownFormat⟩
        (some ⟨"tpm-alt", FuUefiDeviceKind.dellTpmFirmware, 1, 3, "2.0",
          FwupdVersionFormat.unknownFormat⟩) =
      Except.ok
        (⟨"tpm", FuUefiDeviceKind.dellTpmFirmware, 1, 3, "0.0.0.0",
          FwupdVersionFormat.quad⟩,
         ⟨"tpm-alt", FuUefiDeviceKind.dellTpmFirmware, 1, 1, "2.0",
          FwupdVersionFormat.unknownFormat⟩) ∧
    fu_device_has_flag
      ⟨"tpm", FuUefiDeviceKind.dellTpmFirmware, 1, 3, "0.0.0.0",
        FwupdVersionFormat.quad⟩ FWUPD_DEVICE_FLAG_UPDATABLE = true ∧
    fu_device_has_flag
      ⟨"tpm-alt", FuUefiDeviceKind.dellTpmFirmware, 1, 1, "2.0",
        FwupdVersionFormat.unknownFormat⟩ FWUPD_DEVICE_FLAG_UPDATABLE = false := by
  refine ⟨?_, by decide, by decide⟩
  have h := (unlock_success_postconditions
    ⟨"tpm", FuUefiDeviceKind.dellTpmFirmware, 1, 0, "1.2",
      FwupdVersionFormat.unknownFormat⟩
    ⟨"tpm-alt", FuUefiDeviceKind.dellTpmFirmware, 1, 3, "2.0",
      FwupdVersionFormat.unknownFormat⟩ rfl (by decide)).1
  simpa using h

/-- Byte sums add over concatenation. -/
theorem byteSum_append (l l2 : List Nat) :
    byteSum (l ++ l2) = byteSum l + byteSum l2 := by
  simp [byteSum]

/-- Storing a checksum byte into a sub-header whose checksum field was 0 adds
exactly that byte to the serialized byte sum. -/
theorem byteSum_serialize_ux_update (h0 : efi_ux_capsule_header_t) (c : Nat)
    (hc : h0.checksum = 0) :
    byteSum (serialize_ux_header { h0 with checksum := c }) =
      byteSum (serialize_ux_header h0) + c % 256 := by
  simp [serialize_ux_header, byteSum, u32le, hc]
  omega

/-- The serialized outer capsule header is always 28 bytes. -/
theorem serialize_capsule_header_length (h : efi_capsule_header_t) :
    (serialize_capsule_header h).length = 28 := by
  simp [serialize_capsule_header, u32le]
  omega

/-- The serialized UX capsule sub-header is always 24 bytes. -/
theorem serialize_ux_header_length (h : efi_ux_capsule_header_t) :
    (serialize_ux_header h).length = 24 := by
  simp [serialize_ux_header, u32le]

/-- Core checksum computation: storing `0x100 - csum` (truncated to a byte)
as the checksum makes the three-part byte sum vanish modulo 256. -/
theorem checksum_invariant_core (ch : efi_capsule_header_t)
    (h0 : efi_ux_capsule_header_t) (blob : List Nat) (hc : h0.checksum = 0) :
    byteSum (serialize_capsule_header ch ++
      serialize_ux_header { h0 with checksum :=
        (0x100 - (byteSum (serialize_capsule_header ch) +
          byteSum (serialize_ux_header h0) + byteSum blob) % 256) % 256 } ++
      blob) % 256 = 0 := by
  rw [byteSum_append, byteSum_append, byteSum_serialize_ux_update h0 _ hc]
  omega

/-- Characterization of a successful splash-capsule build: the bitmap parse
and the GUID parse must both succeed, and the result is build_ux_capsule. -/
theorem write_splash_data_ok_iff
    (screen_x screen_y bgrt_yoffset bgrt_height : Nat)
    (guid_parse : Option (List Nat)) (blob : List Nat) (c : UxCapsule) :
    fu_plugin_uefi_capsule_write_splash_data screen_x screen_y bgrt_yoffset
        bgrt_height guid_parse blob = Except.ok c ↔
      ∃ width height guid,
        fu_uefi_get_bitmap_size blob = some (width, height) ∧
        guid_parse = some guid ∧
        c = build_ux_capsule screen_x bgrt_yoffset bgrt_height width guid blob := by
  unfold fu_plugin_uefi_capsule_write_splash_data
  rcases hbm : fu_uefi_get_bitmap_size blob with _ | ⟨w, ht⟩ <;>
    rcases guid_parse with _ | g <;>
      simp [hbm, eq_comm]

/-- A width extracted by the bitmap validator is a 32-bit value. -/
theorem bitmap_width_lt (buf : List Nat) (w h : Nat)
    (hbm : fu_uefi_get_bitmap_size buf = some (w, h)) : w < 2 ^ 32 := by
  unfold fu_uefi_get_bitmap_size at hbm
  split_ifs at hbm
  · simp only [Option.some.injEq, Prod.mk.injEq] at hbm
    obtain ⟨hw, hh⟩ := hbm
    subst hw
    unfold le32
    omega

/-- The payload of a built capsule is the input blob. -/
theorem build_payload_eq (screen_x bgrt_yoffset bgrt_height width : Nat)
    (guid blob : List Nat) :
    (build_ux_capsule screen_x bgrt_yoffset bgrt_height width guid blob).payload =
      blob := rfl

/-- The capsule_image_size field of a built capsule. -/
theorem build_capsule_image_size_eq
    (screen_x bgrt_yoffset bgrt_height width : Nat) (guid blob : List Nat) :
    (build_ux_capsule screen_x bgrt_yoffset bgrt_height width guid
        blob).capsule_header.capsule_image_size =
      (blob.length + 28 + 24) % 2 ^ 32 := rfl

/-- The x_offset field of a built capsule: `(screen_x / 2) - (width / 2)` in
unsigned 32-bit arithmetic. -/
theorem build_x_offset_eq
    (screen_x bgrt_yoffset bgrt_height width : Nat) (guid blob : List Nat) :
    (build_ux_capsule screen_x bgrt_yoffset bgrt_height width guid
        blob).header.x_offset =
      (screen_x % 2 ^ 32 / 2 + (2 ^ 32 - width / 2)) % 2 ^ 32 := rfl

/-- A minimal BMP header blob has length 54. -/
theorem bmp54_length (w h : Nat) : (bmp54 w h).length = 54 := by
  simp [bmp54, u32le]

/-- The giant payload has length 2^32 - 52. -/
theorem giantPayload_length : giantPayload.length = 2 ^ 32 - 52 := by
  unfold giantPayload
  rw [List.length_append, bmp54_length, List.length_replicate]
  omega

/-- The giant payload passes bitmap validation with width 640 and height
480. -/
theorem bitmap_size_giantPayload :
    fu_uefi_get_bitmap_size giantPayload = some (640, 480) := by
  have hpre : ∀ i, i < 54 → giantPayload.getD i 0 = (bmp54 640 480).getD i 0 := by
    intro i hi
    unfold giantPayload
    exact List.getD_append _ _ _ _ (by rw [bmp54_length]; omega)
  unfold fu_uefi_get_bitmap_size
  rw [hpre 0 (by omega), hpre 1 (by omega), hpre 18 (by omega),
      hpre 19 (by omega), hpre 20 (by omega), hpre 21 (by omega),
      hpre 22 (by omega), hpre 23 (by omega), hpre 24 (by omega),
      hpre 25 (by omega), giantPayload_length]
  decide

/-- The small build succeeds and produces smallCapsule. -/
theorem smallCapsule_ok :
    fu_plugin_uefi_capsule_write_splash_data 1024 768 40 60 (some guid16)
      smallBmp = Except.ok smallCapsule := rfl

/-- Claim C1: for every UX capsule the splash writer builds successfully
(any payload blob, screen size and BGRT offsets), the 8-bit additive
byte-sum of the serialized CapsuleHeader, the UxCapsuleHeader with its
checksum field as finally stored, and the payload bytes is congruent to 0
modulo 256; equivalently the stored checksum byte equals 0x100 minus (sum of
CapsuleHeader bytes + sum of UxCapsuleHeader bytes with checksum = 0 + sum
of payload bytes) mod 256, both taken modulo 256 as the field is one byte. -/
theorem splash_capsule_checksum_invariant
    (screen_x screen_y bgrt_yoffset bgrt_height : Nat)
    (guid_parse : Option (List Nat)) (blob : List Nat) (c : UxCapsule)
    (hok : fu_plugin_uefi_capsule_write_splash_data screen_x screen_y
      bgrt_yoffset bgrt_height guid_parse blob = Except.ok c) :
    byteSum (capsuleBytes c) % 256 = 0 ∧
    c.header.checksum =
      (0x100 - (byteSum (serialize_capsule_header c.capsule_header) +
        byteSum (serialize_ux_header { c.header with checksum := 0 }) +
        byteSum c.payload) % 256) % 256 := by
  rw [write_splash_data_ok_iff] at hok
  obtain ⟨width, height, guid, hbm, hg, rfl⟩ := hok
  constructor
  · exact checksum_invariant_core
      ((build_ux_capsule screen_x bgrt_yoffset bgrt_height width guid
        blob).capsule_header)
      { (build_ux_capsule screen_x bgrt_yoffset bgrt_height width guid
          blob).header with checksum := 0 }
      blob rfl
  · rfl

/-- Witness for claim C1: the concrete small capsule satisfies the zero-sum
checksum invariant. -/
theorem splash_capsule_checksum_invariant_witness :
    byteSum (capsuleBytes smallCapsule) % 256 = 0 :=
  (splash_capsule_checksum_invariant 1024 768 40 60 (some guid16) smallBmp
    smallCapsule smallCapsule_ok).1

/-- Counterexample for claim C2 as stated: for a valid payload of
2^32 - 52 bytes the build succeeds but the guint32 capsule_image_size field
holds 0, not sizeof(CapsuleHeader) + sizeof(UxCapsuleHeader) + len(payload)
= 2^32. -/
theorem capsule_image_size_overflow_cex :
    capsule_image_size_of (fu_plugin_uefi_capsule_write_splash_data
        1024 768 0 0 (some guid16) giantPayload) = some 0 ∧
    28 + 24 + giantPayload.length = 2 ^ 32 ∧ (0 : Nat) ≠ 2 ^ 32 := by
  have hok : fu_plugin_uefi_capsule_write_splash_data 1024 768 0 0
      (some guid16) giantPayload =
      Except.ok (build_ux_capsule 1024 0 0 640 guid16 giantPayload) :=
    (write_splash_data_ok_iff 1024 768 0 0 (some guid16) giantPayload
      (build_ux_capsule 1024 0 0 640 guid16 giantPayload)).mpr
      ⟨640, 480, guid16, bitmap_size_giantPayload, rfl, rfl⟩
  refine ⟨?_, ?_, by norm_num⟩
  · rw [hok]
    show some ((build_ux_capsule 1024 0 0 640
      guid16 giantPayload).capsule_header.capsule_image_size) = some 0
    rw [build_capsule_image_size_eq, giantPayload_length]
    congr 1
  · rw [giantPayload_length]
    omega

/-- Claim C2 (amended): for every UX capsule the splash writer builds
successfully, the guint32 capsule_image_size field equals
(sizeof(CapsuleHeader) + sizeof(UxCapsuleHeader) + len(payload)) reduced
modulo 2^32, hence equals the exact sum whenever that sum is below 2^32. -/
theorem capsule_image_size_eq_total_size
    (screen_x screen_y bgrt_yoffset bgrt_height : Nat)
    (guid_parse : Option (List Nat)) (blob : List Nat) (c : UxCapsule)
    (hok : fu_plugin_uefi_capsule_write_splash_data screen_x screen_y
      bgrt_yoffset bgrt_height guid_parse blob = Except.ok c) :
    c.capsule_header.capsule_image_size =
      ((serialize_capsule_header c.capsule_header).length +
        (serialize_ux_header c.header).length + c.payload.length) % 2 ^ 32 ∧
    ((serialize_capsule_header c.capsule_header).length +
        (serialize_ux_header c.header).length + c.payload.length < 2 ^ 32 →
      c.capsule_header.capsule_image_size =
        (serialize_capsule_header c.capsule_header).length +
          (serialize_ux_header c.header).length + c.payload.length) := by
  rw [write_splash_data_ok_iff] at hok
  obtain ⟨width, height, guid, hbm, hg, rfl⟩ := hok
  constructor
  · rw [build_capsule_image_size_eq, serialize_capsule_header_length,
        serialize_ux_header_length, build_payload_eq]
    omega
  · intro hlt
    rw [serialize_capsule_header_length, serialize_ux_header_length,
        build_payload_eq] at hlt
    rw [build_capsule_image_size_eq, serialize_capsule_header_length,
        serialize_ux_header_length, build_payload_eq]
    omega

/-- Witness for claim C2: the concrete small capsule (54-byte payload) has
capsule_image_size 28 + 24 + 54. -/
theorem capsule_image_size_eq_total_size_witness :
    smallCapsule.capsule_header.capsule_image_size =
      (serialize_capsule_header smallCapsule.capsule_header).length +
        (serialize_ux_header smallCapsule.header).length +
        smallCapsule.payload.length :=
  (capsule_image_size_eq_total_size 1024 768 40 60 (some guid16) smallBmp
    smallCapsule smallCapsule_ok).2 (by decide)

/-- Counterexample for claim C10 as stated: a validated bitmap 1025 pixels
wide on a 1024-pixel-wide screen exceeds the screen width, yet the stored
x_offset is 0 because 1025/2 = 1024/2 in integer division -- the
subtraction does not wrap and the offset is not huge. -/
theorem x_offset_no_wrap_cex :
    fu_uefi_get_bitmap_size (bmp54 1025 32) = some (1025, 32) ∧
    1024 < 1025 ∧
    x_offset_of (fu_plugin_uefi_capsule_write_splash_data 1024 768 0 0
      (some guid16) (bmp54 1025 32)) = some 0 := by
  refine ⟨by decide, by decide, by decide⟩

/-- Claim C10 (amended): x_offset is computed as screen_width/2 -
bitmap_width/2 in unsigned 32-bit arithmetic, with bitmap_width parsed from
the BMP payload itself; whenever bitmap_width/2 exceeds screen_width/2 (in
particular whenever bitmap_width ≥ screen_width + 2) the subtraction wraps
modulo 2^32 and the stored x_offset is the huge value
2^32 - (width/2 - screen_width/2) ≥ 2^31, with no error raised. -/
theorem x_offset_wraps_when_wider
    (screen_x screen_y bgrt_yoffset bgrt_height : Nat)
    (guid blob : List Nat) (width height : Nat)
    (hbm : fu_uefi_get_bitmap_size blob = some (width, height))
    (hsx : screen_x < 2 ^ 32)
    (hw : screen_x / 2 < width / 2) :
    x_offset_of (fu_plugin_uefi_capsule_write_splash_data screen_x screen_y
        bgrt_yoffset bgrt_height (some guid) blob) =
      some (2 ^ 32 - (width / 2 - screen_x / 2)) ∧
    2 ^ 31 ≤ 2 ^ 32 - (width / 2 - screen_x / 2) := by
  have hwlt : width < 2 ^ 32 := bitmap_width_lt blob width height hbm
  constructor
  · unfold fu_plugin_uefi_capsule_write_splash_data
    rw [hbm]
    show some ((build_ux_capsule screen_x bgrt_yoffset
        bgrt_height width guid blob).header.x_offset) =
      some (2 ^ 32 - (width / 2 - screen_x / 2))
    rw [build_x_offset_eq]
    congr 1
    omega
  · omega

/-- Witness for claim C10: a 2000-pixel-wide validated bitmap on a
1024-pixel-wide screen produces the wrapped offset 2^32 - 488. -/
theorem x_offset_wraps_when_wider_witness :
    x_offset_of (fu_plugin_uefi_capsule_write_splash_data 1024 768 0 0
        (some guid16) (bmp54 2000 32)) =
      some (2 ^ 32 - (2000 / 2 - 1024 / 2)) :=
  (x_offset_wraps_when_wider 1024 768 0 0 guid16 (bmp54 2000 32) 2000 32
    (by decide) (by decide) (by decide)).1

/-- One non-fitting catalog entry is skipped by the selection loop. -/
theorem selectLoop_skip (sw sh i : Nat) (e : SplashSize)
    (rest : List (Nat × SplashSize)) (st : Nat × Nat)
    (h : sw < e.w ∨ sh < e.h) :
    selectLoop sw sh ((i, e) :: rest) st = selectLoop sw sh rest st := by
  obtain ⟨bi, lbp⟩ := st
  rcases h with h | h
  · simp only [selectLoop, if_pos (show e.w > sw from h)]
  · by_cases h1 : e.w > sw
    · simp only [selectLoop, if_pos h1]
    · simp only [selectLoop, if_neg h1, if_pos (show e.h > sh from h)]

/-- A fitting catalog entry with a strictly lower border-pixel count becomes
the new best entry. -/
theorem selectLoop_fit (sw sh i : Nat) (e : SplashSize)
    (rest : List (Nat × SplashSize)) (bi lbp : Nat)
    (h1 : e.w ≤ sw) (h2 : e.h ≤ sh)
    (h3 : border_pixels sw sh e < lbp) :
    selectLoop sw sh ((i, e) :: rest) (bi, lbp) =
      selectLoop sw sh rest (i, border_pixels sw sh e) := by
  simp only [selectLoop, if_neg (show ¬e.w > sw by omega),
    if_neg (show ¬e.h > sh by omega), if_pos h3]

/-- Without 32-bit overflow the border-pixel count is the plain area
difference. -/
theorem border_pixels_eq (sw sh : Nat) (e : SplashSize)
    (hov : sw * sh < 2 ^ 32) (hfit : e.w * e.h ≤ sw * sh)
    (helt : e.w * e.h < 2 ^ 32) :
    border_pixels sw sh e = sw * sh - e.w * e.h := by
  unfold border_pixels
  omega

/-- Selection result when no catalog entry fits the screen. -/
theorem update_splash_sel0 (sw sh : Nat) (h : sw < 640 ∨ sh < 480) :
    fu_plugin_uefi_capsule_update_splash_best_size sw sh =
      Except.error FwupdError.NotSupported := by
  unfold fu_plugin_uefi_capsule_update_splash_best_size sizes_enum
  rw [selectLoop_skip _ _ _ _ _ _ (show sw < 640 ∨ sh < 480 by omega),
      selectLoop_skip _ _ _ _ _ _ (show sw < 800 ∨ sh < 600 by omega),
      selectLoop_skip _ _ _ _ _ _ (show sw < 1024 ∨ sh < 768 by omega),
      selectLoop_skip _ _ _ _ _ _ (show sw < 1920 ∨ sh < 1080 by omega),
      selectLoop_skip _ _ _ _ _ _ (show sw < 3840 ∨ sh < 2160 by omega),
      selectLoop_skip _ _ _ _ _ _ (show sw < 5120 ∨ sh < 2880 by omega),
      selectLoop_skip _ _ _ _ _ _ (show sw < 5688 ∨ sh < 3200 by omega),
      selectLoop_skip _ _ _ _ _ _ (show sw < 7680 ∨ sh < 4320 by omega)]
  rw [if_pos (show (selectLoop sw sh []
    ((4294967295 : Nat), (4294967295 : Nat))).1 = 4294967295 from rfl)]

/-- Selection result when exactly the first 1 catalog entries fit the screen: the 640x480 entry is chosen. -/
theorem update_splash_sel1 (sw sh : Nat) (hov : sw * sh < 2 ^ 32)
    (h1 : 640 ≤ sw) (h2 : 480 ≤ sh) (h3 : sw < 800 ∨ sh < 600) :
    fu_plugin_uefi_capsule_update_splash_best_size sw sh =
      Except.ok ⟨640, 480⟩ := by
  have e0 : (640 * 480 : Nat) ≤ sw * sh :=
    Nat.mul_le_mul (show 640 ≤ sw by omega) (show 480 ≤ sh by omega)
  have b0 : border_pixels sw sh ⟨640, 480⟩ = sw * sh - 640 * 480 :=
    border_pixels_eq sw sh ⟨640, 480⟩ hov e0 (by decide)
  unfold fu_plugin_uefi_capsule_update_splash_best_size sizes_enum
  rw [selectLoop_fit _ _ _ _ _ _ _ (show (640:Nat) ≤ sw by omega)
        (show (480:Nat) ≤ sh by omega) (by rw [b0]; omega),
      selectLoop_skip _ _ _ _ _ _ (show sw < 800 ∨ sh < 600 by omega),
      selectLoop_skip _ _ _ _ _ _ (show sw < 1024 ∨ sh < 768 by omega),
      selectLoop_skip _ _ _ _ _ _ (show sw < 1920 ∨ sh < 1080 by omega),
      selectLoop_skip _ _ _ _ _ _ (show sw < 3840 ∨ sh < 2160 by omega),
      selectLoop_skip _ _ _ _ _ _ (show sw < 5120 ∨ sh < 2880 by omega),
      selectLoop_skip _ _ _ _ _ _ (show sw < 5688 ∨ sh < 3200 by omega),
      selectLoop_skip _ _ _ _ _ _ (show sw < 7680 ∨ sh < 4320 by omega)]
  rfl

/-- Selection result when exactly the first 2 catalog entries fit the screen: the 800x600 entry is chosen. -/
theorem update_splash_sel2 (sw sh : Nat) (hov : sw * sh < 2 ^ 32)
    (h1 : 800 ≤ sw) (h2 : 600 ≤ sh) (h3 : sw < 1024 ∨ sh < 768) :
    fu_plugin_uefi_capsule_update_splash_best_size sw sh =
      Except.ok ⟨800, 600⟩ := by
  have e0 : (640 * 480 : Nat) ≤ sw * sh :=
    Nat.mul_le_mul (show 640 ≤ sw by omega) (show 480 ≤ sh by omega)
  have e1 : (800 * 600 : Nat) ≤ sw * sh :=
    Nat.mul_le_mul (show 800 ≤ sw by omega) (show 600 ≤ sh by omega)
  have b0 : border_pixels sw sh ⟨640, 480⟩ = sw * sh - 640 * 480 :=
    border_pixels_eq sw sh ⟨640, 480⟩ hov e0 (by decide)
  have b1 : border_pixels sw sh ⟨800, 600⟩ = sw * sh - 800 * 600 :=
    border_pixels_eq sw sh ⟨800, 600⟩ hov e1 (by decide)
  unfold fu_plugin_uefi_capsule_update_splash_best_size sizes_enum
  rw [selectLoop_fit _ _ _ _ _ _ _ (show (640:Nat) ≤ sw by omega)
        (show (480:Nat) ≤ sh by omega) (by rw [b0]; omega),
      selectLoop_fit _ _ _ _ _ _ _ (show (800:Nat) ≤ sw by omega)
        (show (600:Nat) ≤ sh by omega) (by rw [b1, b0]; omega),
      selectLoop_skip _ _ _ _ _ _ (show sw < 1024 ∨ sh < 768 by omega),
      selectLoop_skip _ _ _ _ _ _ (show sw < 1920 ∨ sh < 1080 by omega),
      selectLoop_skip _ _ _ _ _ _ (show sw < 3840 ∨ sh < 2160 by omega),
      selectLoop_skip _ _ _ _ _ _ (show sw < 5120 ∨ sh < 2880 by omega),
      selectLoop_skip _ _ _ _ _ _ (show sw < 5688 ∨ sh < 3200 by omega),
      selectLoop_skip _ _ _ _ _ _ (show sw < 7680 ∨ sh < 4320 by omega)]
  rfl

/-- Selection result when exactly the first 3 catalog entries fit the screen: the 1024x768 entry is chosen. -/
theorem update_splash_sel3 (sw sh : Nat) (hov : sw * sh < 2 ^ 32)
    (h1 : 1024 ≤ sw) (h2 : 768 ≤ sh) (h3 : sw < 1920 ∨ sh < 1080) :
    fu_plugin_uefi_capsule_update_splash_best_size sw sh =
      Except.ok ⟨1024, 768⟩ := by
  have e0 : (640 * 480 : Nat) ≤ sw * sh :=
    Nat.mul_le_mul (show 640 ≤ sw by omega) (show 480 ≤ sh by omega)
  have e1 : (800 * 600 : Nat) ≤ sw * sh :=
    Nat.mul_le_mul (show 800 ≤ sw by omega) (show 600 ≤ sh by omega)
  have e2 : (1024 * 768 : Nat) ≤ sw * sh :=
    Nat.mul_le_mul (show 1024 ≤ sw by omega) (show 768 ≤ sh by omega)
  have b0 : border_pixels sw sh ⟨640, 480⟩ = sw * sh - 640 * 480 :=
    border_pixels_eq sw sh ⟨640, 480⟩ hov e0 (by decide)
  have b1 : border_pixels sw sh ⟨800, 600⟩ = sw * sh - 800 * 600 :=
    border_pixels_eq sw sh ⟨800, 600⟩ hov e1 (by decide)
  have b2 : border_pixels sw sh ⟨1024, 768⟩ = sw * sh - 1024 * 768 :=
    border_pixels_eq sw sh ⟨1024, 768⟩ hov e2 (by decide)
  unfold fu_plugin_uefi_capsule_update_splash_best_size sizes_enum
  rw [selectLoop_fit _ _ _ _ _ _ _ (show (640:Nat) ≤ sw by omega)
        (show (480:Nat) ≤ sh by omega) (by rw [b0]; omega),
      selectLoop_fit _ _ _ _ _ _ _ (show (800:Nat) ≤ sw by omega)
        (show (600:Nat) ≤ sh by omega) (by rw [b1, b0]; omega),
      selectLoop_fit _ _ _ _ _ _ _ (show (1024:Nat) ≤ sw by omega)
        (show (768:Nat) ≤ sh by omega) (by rw [b2, b1]; omega),
      selectLoop_skip _ _ _ _ _ _ (show sw < 1920 ∨ sh < 1080 by omega),
      selectLoop_skip _ _ _ _ _ _ (show sw < 3840 ∨ sh < 2160 by omega),
      selectLoop_skip _ _ _ _ _ _ (show sw < 5120 ∨ sh < 2880 by omega),
      selectLoop_skip _ _ _ _ _ _ (show sw < 5688 ∨ sh < 3200 by omega),
      selectLoop_skip _ _ _ _ _ _ (show sw < 7680 ∨ sh < 4320 by omega)]
  rfl

/-- Selection result when exactly the first 4 catalog entries fit the screen: the 1920x1080 entry is chosen. -/
theorem update_splash_sel4 (sw sh : Nat) (hov : sw * sh < 2 ^ 32)
    (h1 : 1920 ≤ sw) (h2 : 1080 ≤ sh) (h3 : sw < 3840 ∨ sh < 2160) :
    fu_plugin_uefi_capsule_update_splash_best_size sw sh =
      Except.ok ⟨1920, 1080⟩ := by
  have e0 : (640 * 480 : Nat) ≤ sw * sh :=
    Nat.mul_le_mul (show 640 ≤ sw by omega) (show 480 ≤ sh by omega)
  have e1 : (800 * 600 : Nat) ≤ sw * sh :=
    Nat.mul_le_mul (show 800 ≤ sw by omega) (show 600 ≤ sh by omega)
  have e2 : (1024 * 768 : Nat) ≤ sw * sh :=
    Nat.mul_le_mul (show 1024 ≤ sw by omega) (show 768 ≤ sh by omega)
  have e3 : (1920 * 1080 : Nat) ≤ sw * sh :=
    Nat.mul_le_mul (show 1920 ≤ sw by omega) (show 1080 ≤ sh by omega)
  have b0 : border_pixels sw sh ⟨640, 480⟩ = sw * sh - 640 * 480 :=
    border_pixels_eq sw sh ⟨640, 480⟩ hov e0 (by decide)
  have b1 : border_pixels sw sh ⟨800, 600⟩ = sw * sh - 800 * 600 :=
    border_pixels_eq sw sh ⟨800, 600⟩ hov e1 (by decide)
  have b2 : border_pixels sw sh ⟨1024, 768⟩ = sw * sh - 1024 * 768 :=
    border_pixels_eq sw sh ⟨1024, 768⟩ hov e2 (by decide)
  have b3 : border_pixels sw sh ⟨1920, 1080⟩ = sw * sh - 1920 * 1080 :=
    border_pixels_eq sw sh ⟨1920, 1080⟩ hov e3 (by decide)
  unfold fu_plugin_uefi_capsule_update_splash_best_size sizes_enum
  rw [selectLoop_fit _ _ _ _ _ _ _ (show (640:Nat) ≤ sw by omega)
        (show (480:Nat) ≤ sh by omega) (by rw [b0]; omega),
      selectLoop_fit _ _ _ _ _ _ _ (show (800:Nat) ≤ sw by omega)
        (show (600:Nat) ≤ sh by omega) (by rw [b1, b0]; omega),
      selectLoop_fit _ _ _ _ _ _ _ (show (1024:Nat) ≤ sw by omega)
        (show (768:Nat) ≤ sh by omega) (by rw [b2, b1]; omega),
      selectLoop_fit _ _ _ _ _ _ _ (show (1920:Nat) ≤ sw by omega)
        (show (1080:Nat) ≤ sh by omega) (by rw [b3, b2]; omega),
      selectLoop_skip _ _ _ _ _ _ (show sw < 3840 ∨ sh < 2160 by omega),
      selectLoop_skip _ _ _ _ _ _ (show sw < 5120 ∨ sh < 2880 by omega),
      selectLoop_skip _ _ _ _ _ _ (show sw < 5688 ∨ sh < 3200 by omega),
      selectLoop_skip _ _ _ _ _ _ (show sw < 7680 ∨ sh < 4320 by omega)]
  rfl

/-- Selection result when exactly the first 5 catalog entries fit the screen: the 3840x2160 entry is chosen. -/
theorem update_splash_sel5 (sw sh : Nat) (hov : sw * sh < 2 ^ 32)
    (h1 : 3840 ≤ sw) (h2 : 2160 ≤ sh) (h3 : sw < 5120 ∨ sh < 2880) :
    fu_plugin_uefi_capsule_update_splash_best_size sw sh =
      Except.ok ⟨3840, 2160⟩ := by
  have e0 : (640 * 480 : Nat) ≤ sw * sh :=
    Nat.mul_le_mul (show 640 ≤ sw by omega) (show 480 ≤ sh by omega)
  have e1 : (800 * 600 : Nat) ≤ sw * sh :=
    Nat.mul_le_mul (show 800 ≤ sw by omega) (show 600 ≤ sh by omega)
  have e2 : (1024 * 768 : Nat) ≤ sw * sh :=
    Nat.mul_le_mul (show 1024 ≤ sw by omega) (show 768 ≤ sh by omega)
  have e3 : (1920 * 1080 : Nat) ≤ sw * sh :=
    Nat.mul_le_mul (show 1920 ≤ sw by omega) (show 1080 ≤ sh by omega)
  have e4 : (3840 * 2160 : Nat) ≤ sw * sh :=
    Nat.mul_le_mul (show 3840 ≤ sw by omega) (show 2160 ≤ sh by omega)
  have b0 : border_pixels sw sh ⟨640, 480⟩ = sw * sh - 640 * 480 :=
    border_pixels_eq sw sh ⟨640, 480⟩ hov e0 (by decide)
  have b1 : border_pixels sw sh ⟨800, 600⟩ = sw * sh - 800 * 600 :=
    border_pixels_eq sw sh ⟨800, 600⟩ hov e1 (by decide)
  have b2 : border_pixels sw sh ⟨1024, 768⟩ = sw * sh - 1024 * 768 :=
    border_pixels_eq sw sh ⟨1024, 768⟩ hov e2 (by decide)
  have b3 : border_pixels sw sh ⟨1920, 1080⟩ = sw * sh - 1920 * 1080 :=
    border_pixels_eq sw sh ⟨1920, 1080⟩ hov e3 (by decide)
  have b4 : border_pixels sw sh ⟨3840, 2160⟩ = sw * sh - 3840 * 2160 :=
    border_pixels_eq sw sh ⟨3840, 2160⟩ hov e4 (by decide)
  unfold fu_plugin_uefi_capsule_update_splash_best_size sizes_enum
  rw [selectLoop_fit _ _ _ _ _ _ _ (show (640:Nat) ≤ sw by omega)
        (show (480:Nat) ≤ sh by omega) (by rw [b0]; omega),
      selectLoop_fit _ _ _ _ _ _ _ (show (800:Nat) ≤ sw by omega)
        (show (600:Nat) ≤ sh by omega) (by rw [b1, b0]; omega),
      selectLoop_fit _ _ _ _ _ _ _ (show (1024:Nat) ≤ sw by omega)
        (show (768:Nat) ≤ sh by omega) (by rw [b2, b1]; omega),
      selectLoop_fit _ _ _ _ _ _ _ (show (1920:Nat) ≤ sw by omega)
        (show (1080:Nat) ≤ sh by omega) (by rw [b3, b2]; omega),
      selectLoop_fit _ _ _ _ _ _ _ (show (3840:Nat) ≤ sw by omega)
        (show (2160:Nat) ≤ sh by omega) (by rw [b4, b3]; omega),
      selectLoop_skip _ _ _ _ _ _ (show sw < 5120 ∨ sh < 2880 by omega),
      selectLoop_skip _ _ _ _ _ _ (show sw < 5688 ∨ sh < 3200 by omega),
      selectLoop_skip _ _ _ _ _ _ (show sw < 7680 ∨ sh < 4320 by omega)]
  rfl

/-- Selection result when exactly the first 6 catalog entries fit the screen: the 5120x2880 entry is chosen. -/
theorem update_splash_sel6 (sw sh : Nat) (hov : sw * sh < 2 ^ 32)
    (h1 : 5120 ≤ sw) (h2 : 2880 ≤ sh) (h3 : sw < 5688 ∨ sh < 3200) :
    fu_plugin_uefi_capsule_update_splash_best_size sw sh =
      Except.ok ⟨5120, 2880⟩ := by
  have e0 : (640 * 480 : Nat) ≤ sw * sh :=
    Nat.mul_le_mul (show 640 ≤ sw by omega) (show 480 ≤ sh by omega)
  have e1 : (800 * 600 : Nat) ≤ sw * sh :=
    Nat.mul_le_mul (show 800 ≤ sw by omega) (show 600 ≤ sh by omega)
  have e2 : (1024 * 768 : Nat) ≤ sw * sh :=
    Nat.mul_le_mul (show 1024 ≤ sw by omega) (show 768 ≤ sh by omega)
  have e3 : (1920 * 1080 : Nat) ≤ sw * sh :=
    Nat.mul_le_mul (show 1920 ≤ sw by omega) (show 1080 ≤ sh by omega)
  have e4 : (3840 * 2160 : Nat) ≤ sw * sh :=
    Nat.mul_le_mul (show 3840 ≤ sw by omega) (show 2160 ≤ sh by omega)
  have e5 : (5120 * 2880 : Nat) ≤ sw * sh :=
    Nat.mul_le_mul (show 5120 ≤ sw by omega) (show 2880 ≤ sh by omega)
  have b0 : border_pixels sw sh ⟨640, 480⟩ = sw * sh - 640 * 480 :=
    border_pixels_eq sw sh ⟨640, 480⟩ hov e0 (by decide)
  have b1 : border_pixels sw sh ⟨800, 600⟩ = sw * sh - 800 * 600 :=
    border_pixels_eq sw sh ⟨800, 600⟩ hov e1 (by decide)
  have b2 : border_pixels sw sh ⟨1024, 768⟩ = sw * sh - 1024 * 768 :=
    border_pixels_eq sw sh ⟨1024, 768⟩ hov e2 (by decide)
  have b3 : border_pixels sw sh ⟨1920, 1080⟩ = sw * sh - 1920 * 1080 :=
    border_pixels_eq sw sh ⟨1920, 1080⟩ hov e3 (by decide)
  have b4 : border_pixels sw sh ⟨3840, 2160⟩ = sw * sh - 3840 * 2160 :=
    border_pixels_eq sw sh ⟨3840, 2160⟩ hov e4 (by decide)
  have b5 : border_pixels sw sh ⟨5120, 2880⟩ = sw * sh - 5120 * 2880 :=
    border_pixels_eq sw sh ⟨5120, 2880⟩ hov e5 (by decide)
  unfold fu_plugin_uefi_capsule_update_splash_best_size sizes_enum
  rw [selectLoop_fit _ _ _ _ _ _ _ (show (640:Nat) ≤ sw by omega)
        (show (480:Nat) ≤ sh by omega) (by rw [b0]; omega),
      selectLoop_fit _ _ _ _ _ _ _ (show (800:Nat) ≤ sw by omega)
        (show (600:Nat) ≤ sh by omega) (by rw [b1, b0]; omega),
      selectLoop_fit _ _ _ _ _ _ _ (show (1024:Nat) ≤ sw by omega)
        (show (768:Nat) ≤ sh by omega) (by rw [b2, b1]; omega),
      selectLoop_fit _ _ _ _ _ _ _ (show (1920:Nat) ≤ sw by omega)
        (show (1080:Nat) ≤ sh by omega) (by rw [b3, b2]; omega),
      selectLoop_fit _ _ _ _ _ _ _ (show (3840:Nat) ≤ sw by omega)
        (show (2160:Nat) ≤ sh by omega) (by rw [b4, b3]; omega),
      selectLoop_fit _ _ _ _ _ _ _ (show (5120:Nat) ≤ sw by omega)
        (show (2880:Nat) ≤ sh by omega) (by rw [b5, b4]; omega),
      selectLoop_skip _ _ _ _ _ _ (show sw < 5688 ∨ sh < 3200 by omega),
      selectLoop_skip _ _ _ _ _ _ (show sw < 7680 ∨ sh < 4320 by omega)]
  rfl

/-- Selection result when exactly the first 7 catalog entries fit the screen: the 5688x3200 entry is chosen. -/
theorem update_splash_sel7 (sw sh : Nat) (hov : sw * sh < 2 ^ 32)
    (h1 : 5688 ≤ sw) (h2 : 3200 ≤ sh) (h3 : sw < 7680 ∨ sh < 4320) :
    fu_plugin_uefi_capsule_update_splash_best_size sw sh =
      Except.ok ⟨5688, 3200⟩ := by
  have e0 : (640 * 480 : Nat) ≤ sw * sh :=
    Nat.mul_le_mul (show 640 ≤ sw by omega) (show 480 ≤ sh by omega)
  have e1 : (800 * 600 : Nat) ≤ sw * sh :=
    Nat.mul_le_mul (show 800 ≤ sw by omega) (show 600 ≤ sh by omega)
  have e2 : (1024 * 768 : Nat) ≤ sw * sh :=
    Nat.mul_le_mul (show 1024 ≤ sw by omega) (show 768 ≤ sh by omega)
  have e3 : (1920 * 1080 : Nat) ≤ sw * sh :=
    Nat.mul_le_mul (show 1920 ≤ sw by omega) (show 1080 ≤ sh by omega)
  have e4 : (3840 * 2160 : Nat) ≤ sw * sh :=
    Nat.mul_le_mul (show 3840 ≤ sw by omega) (show 2160 ≤ sh by omega)
  have e5 : (5120 * 2880 : Nat) ≤ sw * sh :=
    Nat.mul_le_mul (show 5120 ≤ sw by omega) (show 2880 ≤ sh by omega)
  have e6 : (5688 * 3200 : Nat) ≤ sw * sh :=
    Nat.mul_le_mul (show 5688 ≤ sw by omega) (show 3200 ≤ sh by omega)
  have b0 : border_pixels sw sh ⟨640, 480⟩ = sw * sh - 640 * 480 :=
    border_pixels_eq sw sh ⟨640, 480⟩ hov e0 (by decide)
  have b1 : border_pixels sw sh ⟨800, 600⟩ = sw * sh - 800 * 600 :=
    border_pixels_eq sw sh ⟨800, 600⟩ hov e1 (by decide)
  have b2 : border_pixels sw sh ⟨1024, 768⟩ = sw * sh - 1024 * 768 :=
    border_pixels_eq sw sh ⟨1024, 768⟩ hov e2 (by decide)
  have b3 : border_pixels sw sh ⟨1920, 1080⟩ = sw * sh - 1920 * 1080 :=
    border_pixels_eq sw sh ⟨1920, 1080⟩ hov e3 (by decide)
  have b4 : border_pixels sw sh ⟨3840, 2160⟩ = sw * sh - 3840 * 2160 :=
    border_pixels_eq sw sh ⟨3840, 2160⟩ hov e4 (by decide)
  have b5 : border_pixels sw sh ⟨5120, 2880⟩ = sw * sh - 5120 * 2880 :=
    border_pixels_eq sw sh ⟨5120, 2880⟩ hov e5 (by decide)
  have b6 : border_pixels sw sh ⟨5688, 3200⟩ = sw * sh - 5688 * 3200 :=
    border_pixels_eq sw sh ⟨5688, 3200⟩ hov e6 (by decide)
  unfold fu_plugin_uefi_capsule_update_splash_best_size sizes_enum
  rw [selectLoop_fit _ _ _ _ _ _ _ (show (640:Nat) ≤ sw by omega)
        (show (480:Nat) ≤ sh by omega) (by rw [b0]; omega),
      selectLoop_fit _ _ _ _ _ _ _ (show (800:Nat) ≤ sw by omega)
        (show (600:Nat) ≤ sh by omega) (by rw [b1, b0]; omega),
      selectLoop_fit _ _ _ _ _ _ _ (show (1024:Nat) ≤ sw by omega)
        (show (768:Nat) ≤ sh by omega) (by rw [b2, b1]; omega),
      selectLoop_fit _ _ _ _ _ _ _ (show (1920:Nat) ≤ sw by omega)
        (show (1080:Nat) ≤ sh by omega) (by rw [b3, b2]; omega),
      selectLoop_fit _ _ _ _ _ _ _ (show (3840:Nat) ≤ sw by omega)
        (show (2160:Nat) ≤ sh by omega) (by rw [b4, b3]; omega),
      selectLoop_fit _ _ _ _ _ _ _ (show (5120:Nat) ≤ sw by omega)
        (show (2880:Nat) ≤ sh by omega) (by rw [b5, b4]; omega),
      selectLoop_fit _ _ _ _ _ _ _ (show (5688:Nat) ≤ sw by omega)
        (show (3200:Nat) ≤ sh by omega) (by rw [b6, b5]; omega),
      selectLoop_skip _ _ _ _ _ _ (show sw < 7680 ∨ sh < 4320 by omega)]
  rfl

/-- Selection result when exactly the first 8 catalog entries fit the screen: the 7680x4320 entry is chosen. -/
theorem update_splash_sel8 (sw sh : Nat) (hov : sw * sh < 2 ^ 32)
    (h1 : 7680 ≤ sw) (h2 : 4320 ≤ sh) :
    fu_plugin_uefi_capsule_update_splash_best_size sw sh =
      Except.ok ⟨7680, 4320⟩ := by
  have e0 : (640 * 480 : Nat) ≤ sw * sh :=
    Nat.mul_le_mul (show 640 ≤ sw by omega) (show 480 ≤ sh by omega)
  have e1 : (800 * 600 : Nat) ≤ sw * sh :=
    Nat.mul_le_mul (show 800 ≤ sw by omega) (show 600 ≤ sh by omega)
  have e2 : (1024 * 768 : Nat) ≤ sw * sh :=
    Nat.mul_le_mul (show 1024 ≤ sw by omega) (show 768 ≤ sh by omega)
  have e3 : (1920 * 1080 : Nat) ≤ sw * sh :=
    Nat.mul_le_mul (show 1920 ≤ sw by omega) (show 1080 ≤ sh by omega)
  have e4 : (3840 * 2160 : Nat) ≤ sw * sh :=
    Nat.mul_le_mul (show 3840 ≤ sw by omega) (show 2160 ≤ sh by omega)
  have e5 : (5120 * 2880 : Nat) ≤ sw * sh :=
    Nat.mul_le_mul (show 5120 ≤ sw by omega) (show 2880 ≤ sh by omega)
  have e6 : (5688 * 3200 : Nat) ≤ sw * sh :=
    Nat.mul_le_mul (show 5688 ≤ sw by omega) (show 3200 ≤ sh by omega)
  have e7 : (7680 * 4320 : Nat) ≤ sw * sh :=
    Nat.mul_le_mul (show 7680 ≤ sw by omega) (show 4320 ≤ sh by omega)
  have b0 : border_pixels sw sh ⟨640, 480⟩ = sw * sh - 640 * 480 :=
    border_pixels_eq sw sh ⟨640, 480⟩ hov e0 (by decide)
  have b1 : border_pixels sw sh ⟨800, 600⟩ = sw * sh - 800 * 600 :=
    border_pixels_eq sw sh ⟨800, 600⟩ hov e1 (by decide)
  have b2 : border_pixels sw sh ⟨1024, 768⟩ = sw * sh - 1024 * 768 :=
    border_pixels_eq sw sh ⟨1024, 768⟩ hov e2 (by decide)
  have b3 : border_pixels sw sh ⟨1920, 1080⟩ = sw * sh - 1920 * 1080 :=
    border_pixels_eq sw sh ⟨1920, 1080⟩ hov e3 (by decide)
  have b4 : border_pixels sw sh ⟨3840, 2160⟩ = sw * sh - 3840 * 2160 :=
    border_pixels_eq sw sh ⟨3840, 2160⟩ hov e4 (by decide)
  have b5 : border_pixels sw sh ⟨5120, 2880⟩ = sw * sh - 5120 * 2880 :=
    border_pixels_eq sw sh ⟨5120, 2880⟩ hov e5 (by decide)
  have b6 : border_pixels sw sh ⟨5688, 3200⟩ = sw * sh - 5688 * 3200 :=
    border_pixels_eq sw sh ⟨5688, 3200⟩ hov e6 (by decide)
  have b7 : border_pixels sw sh ⟨7680, 4320⟩ = sw * sh - 7680 * 4320 :=
    border_pixels_eq sw sh ⟨7680, 4320⟩ hov e7 (by decide)
  unfold fu_plugin_uefi_capsule_update_splash_best_size sizes_enum
  rw [selectLoop_fit _ _ _ _ _ _ _ (show (640:Nat) ≤ sw by omega)
        (show (480:Nat) ≤ sh by omega) (by rw [b0]; omega),
      selectLoop_fit _ _ _ _ _ _ _ (show (800:Nat) ≤ sw by omega)
        (show (600:Nat) ≤ sh by omega) (by rw [b1, b0]; omega),
      selectLoop_fit _ _ _ _ _ _ _ (show (1024:Nat) ≤ sw by omega)
        (show (768:Nat) ≤ sh by omega) (by rw [b2, b1]; omega),
      selectLoop_fit _ _ _ _ _ _ _ (show (1920:Nat) ≤ sw by omega)
        (show (1080:Nat) ≤ sh by omega) (by rw [b3, b2]; omega),
      selectLoop_fit _ _ _ _ _ _ _ (show (3840:Nat) ≤ sw by omega)
        (show (2160:Nat) ≤ sh by omega) (by rw [b4, b3]; omega),
      selectLoop_fit _ _ _ _ _ _ _ (show (5120:Nat) ≤ sw by omega)
        (show (2880:Nat) ≤ sh by omega) (by rw [b5, b4]; omega),
      selectLoop_fit _ _ _ _ _ _ _ (show (5688:Nat) ≤ sw by omega)
        (show (3200:Nat) ≤ sh by omega) (by rw [b6, b5]; omega),
      selectLoop_fit _ _ _ _ _ _ _ (show (7680:Nat) ≤ sw by omega)
        (show (4320:Nat) ≤ sh by omega) (by rw [b7, b6]; omega)]
  rfl

/-- Claim C3 (amended): for every screen resolution whose pixel count
screen_width * screen_height does not overflow 32 bits, the selection over
the fixed catalog returns the entry of largest area whose width and height
both fit the screen, and fails with NotSupported when no entry fits; the
border-pixel subtraction is evaluated in unsigned 32-bit arithmetic, so for
overflowing screen areas a smaller entry can win (see the counterexample). -/
theorem update_splash_selects_largest_fit (sw sh : Nat)
    (hov : sw * sh < 2 ^ 32) :
    (match fu_plugin_uefi_capsule_update_splash_best_size sw sh with
      | Except.ok b => b ∈ sizes ∧ b.w ≤ sw ∧ b.h ≤ sh ∧
          ∀ e ∈ sizes, e.w ≤ sw → e.h ≤ sh → e.w * e.h ≤ b.w * b.h
      | Except.error err => err = FwupdError.NotSupported ∧
          ∀ e ∈ sizes, ¬(e.w ≤ sw ∧ e.h ≤ sh)) := by
  by_cases f7 : 7680 ≤ sw ∧ 4320 ≤ sh
  · rw [update_splash_sel8 sw sh hov f7.1 f7.2]
    exact ⟨by decide, f7.1, f7.2,
      by intro e he h1 h2; fin_cases he <;> simp_all⟩
  by_cases f6 : 5688 ≤ sw ∧ 3200 ≤ sh
  · rw [update_splash_sel7 sw sh hov f6.1 f6.2 (by omega)]
    exact ⟨by decide, f6.1, f6.2,
      by intro e he h1 h2; fin_cases he <;> simp_all⟩
  by_cases f5 : 5120 ≤ sw ∧ 2880 ≤ sh
  · rw [update_splash_sel6 sw sh hov f5.1 f5.2 (by omega)]
    exact ⟨by decide, f5.1, f5.2,
      by intro e he h1 h2; fin_cases he <;> simp_all⟩
  by_cases f4 : 3840 ≤ sw ∧ 2160 ≤ sh
  · rw [update_splash_sel5 sw sh hov f4.1 f4.2 (by omega)]
    exact ⟨by decide, f4.1, f4.2,
      by intro e he h1 h2; fin_cases he <;> simp_all⟩
  by_cases f3 : 1920 ≤ sw ∧ 1080 ≤ sh
  · rw [update_splash_sel4 sw sh hov f3.1 f3.2 (by omega)]
    exact ⟨by decide, f3.1, f3.2,
      by intro e he h1 h2; fin_cases he <;> simp_all⟩
  by_cases f2 : 1024 ≤ sw ∧ 768 ≤ sh
  · rw [update_splash_sel3 sw sh hov f2.1 f2.2 (by omega)]
    exact ⟨by decide, f2.1, f2.2,
      by intro e he h1 h2; fin_cases he <;> simp_all⟩
  by_cases f1 : 800 ≤ sw ∧ 600 ≤ sh
  · rw [update_splash_sel2 sw sh hov f1.1 f1.2 (by omega)]
    exact ⟨by decide, f1.1, f1.2,
      by intro e he h1 h2; fin_cases he <;> simp_all⟩
  by_cases f0 : 640 ≤ sw ∧ 480 ≤ sh
  · rw [update_splash_sel1 sw sh hov f0.1 f0.2 (by omega)]
    exact ⟨by decide, f0.1, f0.2,
      by intro e he h1 h2; fin_cases he <;> simp_all⟩
  rw [update_splash_sel0 sw sh (by omega)]
  exact ⟨rfl, by intro e he; fin_cases he <;> simp_all⟩

/-- Counterexample for claim C3 as stated: on a 65541x65536 screen every
catalog entry fits, yet the selection returns the 640x480 entry instead of
the largest fitting entry 7680x4320, because the guint32 product
screen_width * screen_height wraps modulo 2^32 before the border-pixel
subtraction. -/
theorem update_splash_overflow_cex :
    fu_plugin_uefi_capsule_update_splash_best_size 65541 65536 =
      Except.ok ⟨640, 480⟩ ∧
    (⟨7680, 4320⟩ : SplashSize) ∈ sizes ∧
    7680 ≤ 65541 ∧ 4320 ≤ 65536 ∧
    (640 * 480 : Nat) < 7680 * 4320 :=
  ⟨rfl, by decide, by decide, by decide, by decide⟩

/-- Witness for claim C3: the 1000x700 scenario screen does not overflow,
the theorem applies to it, and the concrete selections of the two scenario
screens are 800x600 and 1920x1080 respectively. -/
theorem update_splash_selects_largest_fit_witness :
    (1000 * 700 : Nat) < 2 ^ 32 ∧
    (match fu_plugin_uefi_capsule_update_splash_best_size 1000 700 with
      | Except.ok b => b ∈ sizes ∧ b.w ≤ 1000 ∧ b.h ≤ 700 ∧
          ∀ e ∈ sizes, e.w ≤ 1000 → e.h ≤ 700 → e.w * e.h ≤ b.w * b.h
      | Except.error err => err = FwupdError.NotSupported ∧
          ∀ e ∈ sizes, ¬(e.w ≤ 1000 ∧ e.h ≤ 700)) ∧
    fu_plugin_uefi_capsule_update_splash_best_size 1000 700 =
      Except.ok ⟨800, 600⟩ ∧
    fu_plugin_uefi_capsule_update_splash_best_size 1920 1080 =
      Except.ok ⟨1920, 1080⟩ :=
  ⟨by norm_num, update_splash_selects_largest_fit 1000 700 (by norm_num),
   rfl, rfl⟩

end Fwupd
